import Mathlib

/-!
Verification of the margin-calculator position model (`src/main.py`).

Python floats are modelled as exact rationals.  Python's `/` raises
`ZeroDivisionError` on a zero denominator, so every division in the source
is modelled by the `Option`-valued `pydiv`; an accessor that can raise is
`Option`-valued, `none` standing for the raised exception.
-/

/-- Python division: raises on a zero denominator, modelled as `Option`. -/
def pydiv (a b : ℚ) : Option ℚ := if b = 0 then none else some (a / b)

/-- The `MarginPosition` dataclass of `src/main.py` (lines 12-18): five stored
fields, no `__post_init__`, hence no validation of any kind at construction. -/
structure MarginPosition where
  amount : ℚ
  ltv : ℚ
  leverage : ℚ
  collateral_rate : ℚ
  borrow_rate : ℚ
  deriving DecidableEq

/-- The dataclass-generated constructor: it stores the five arguments verbatim
in the corresponding fields and can do nothing else. -/
def construct (a l lev cr br : ℚ) : MarginPosition := ⟨a, l, lev, cr, br⟩

namespace MarginPosition

/-- `max_leverage` property (line 22): `1 / (1 - self.ltv)`. -/
def max_leverage (p : MarginPosition) : Option ℚ := pydiv 1 (1 - p.ltv)

/-- `collateral` property (line 26): `self.amount`. -/
def collateral (p : MarginPosition) : ℚ := p.amount

/-- `borrow` property (line 30): `self.amount * (self.leverage - 1)`. -/
def borrow (p : MarginPosition) : ℚ := p.amount * (p.leverage - 1)

/-- `deposit` property (line 34): `self.collateral + self.borrow`. -/
def deposit (p : MarginPosition) : ℚ := p.collateral + p.borrow

/-- `net_apy` property (lines 38-39): the earnings expression divided by
`self.collateral`, then multiplied by 100. -/
def net_apy (p : MarginPosition) : Option ℚ :=
  (pydiv (p.collateral_rate * p.collateral * p.leverage - p.borrow_rate * p.borrow)
      p.collateral).map (fun x => x * 100)

/-- `annual_earnings` property (lines 43-44). -/
def annual_earnings (p : MarginPosition) : ℚ :=
  p.collateral_rate * p.collateral * p.leverage - p.borrow_rate * p.borrow

/-- `monthly_earnings` property (line 48): `self.annual_earnings / 12`. -/
def monthly_earnings (p : MarginPosition) : Option ℚ := pydiv p.annual_earnings 12

/-- `daily_earnings` property (line 52): `self.annual_earnings / 365`. -/
def daily_earnings (p : MarginPosition) : Option ℚ := pydiv p.annual_earnings 365

end MarginPosition

/-- The §3 construction invariants of the spec, transcribed verbatim as a side
definition used only to compare the spec with the code: `amount > 0`,
`0 < ltv < 1`, `1 ≤ leverage ≤ 1/(1-ltv)`, both rates non-negative. -/
def ValidInputsSpec (a l lev cr br : ℚ) : Prop :=
  0 < a ∧ (0 < l ∧ l < 1) ∧ (1 ≤ lev ∧ lev ≤ 1 / (1 - l)) ∧ 0 ≤ cr ∧ 0 ≤ br

instance (a l lev cr br : ℚ) : Decidable (ValidInputsSpec a l lev cr br) := by
  unfold ValidInputsSpec
  infer_instance

/-- One row of the sensitivity table (lines 119-126): the numeric values
behind the formatted strings. -/
structure SensitivityRow where
  leverage : ℚ
  size : ℚ
  apy : ℚ
  annual : ℚ
  monthly : ℚ
  daily : ℚ
  deriving DecidableEq

/-- The `test_pos` construction of lines 112-118: a fresh `MarginPosition`
sharing `amount`, `ltv`, `collateral_rate`, `borrow_rate` with `base` and
carrying the candidate leverage `L`. -/
def withLeverage (base : MarginPosition) (L : ℚ) : MarginPosition :=
  ⟨base.amount, base.ltv, L, base.collateral_rate, base.borrow_rate⟩

/-- Building one sensitivity row (lines 119-126) evaluates `net_apy`,
`monthly_earnings` and `daily_earnings`, so it propagates their exceptions. -/
def row (p : MarginPosition) : Option SensitivityRow :=
  p.net_apy.bind fun apy =>
    p.monthly_earnings.bind fun mo =>
      p.daily_earnings.bind fun da =>
        some ⟨p.leverage, p.deposit, apy, p.annual_earnings, mo, da⟩

/-- The value a sensitivity row takes whenever no division raises. -/
def rowVal (p : MarginPosition) : SensitivityRow :=
  ⟨p.leverage, p.deposit,
    (p.collateral_rate * p.collateral * p.leverage - p.borrow_rate * p.borrow) /
      p.collateral * 100,
    p.annual_earnings, p.annual_earnings / 12, p.annual_earnings / 365⟩

/-- The `for lev in leverages` loop of lines 110-126: keep a candidate only
when `lev <= position.max_leverage` (here `ml`), appending its row in input
order; a raised exception aborts the loop. -/
def generateLoop (base : MarginPosition) (ml : ℚ) : List ℚ → Option (List SensitivityRow)
  | [] => some []
  | L :: rest =>
    if L ≤ ml then
      (row (withLeverage base L)).bind fun r =>
        (generateLoop base ml rest).map fun rs => r :: rs
    else generateLoop base ml rest

/-- `SensitivityReport.Generate`: evaluate `base.max_leverage` (line 107,
raising if `ltv = 1`), then run the filtering loop over the candidates. -/
def generate (base : MarginPosition) (cands : List ℚ) : Option (List SensitivityRow) :=
  base.max_leverage.bind fun ml => generateLoop base ml cands

/-- The worked example of the spec: `amount=100, ltv=0.8, leverage=5,
collateral_rate=0.1376, borrow_rate=0.1097`. -/
def examplePosition : MarginPosition := ⟨100, 4/5, 5, 1376/10000, 1097/10000⟩

/-! Helper lemmas shared by several claims. -/

theorem row_eq_rowVal (p : MarginPosition) (h : p.collateral ≠ 0) :
    row p = some (rowVal p) := by
  simp [row, rowVal, MarginPosition.net_apy, MarginPosition.monthly_earnings,
    MarginPosition.daily_earnings, pydiv, h]

theorem generateLoop_eq_filter_map (base : MarginPosition) (ml : ℚ)
    (h : base.amount ≠ 0) (cands : List ℚ) :
    generateLoop base ml cands =
      some ((cands.filter fun L => decide (L ≤ ml)).map
        fun L => rowVal (withLeverage base L)) := by
  induction cands with
  | nil => simp [generateLoop]
  | cons L rest ih =>
    have hcol : (withLeverage base L).collateral ≠ 0 := h
    by_cases hL : L ≤ ml
    · simp [generateLoop, hL, ih, row_eq_rowVal (withLeverage base L) hcol]
    · simp [generateLoop, hL, ih]

theorem net_apy_formula (p : MarginPosition) (h : p.amount ≠ 0) :
    p.net_apy =
      some ((p.collateral_rate * p.leverage - p.borrow_rate * (p.leverage - 1)) * 100) := by
  have hc : p.collateral ≠ 0 := h
  simp only [MarginPosition.net_apy, pydiv, hc, if_neg hc, Option.map_some]
  rw [MarginPosition.collateral, MarginPosition.borrow]
  field_simp
  ring

/-! Claim C1. -/

/-- C1 counterexample: constructing with `amount = 0` — which violates the §3
invariant `amount > 0` — does not fail: it returns a fully constructed
instance whose fields are exactly the given arguments. -/
theorem construct_amount_zero_succeeds :
    construct 0 (4/5) 1 (1/10) (1/10) = (⟨0, 4/5, 1, 1/10, 1/10⟩ : MarginPosition)
    ∧ ¬ ValidInputsSpec 0 (4/5) 1 (1/10) (1/10) := by
  refine ⟨rfl, ?_⟩
  decide

/-- C1 (amended): constructing a `MarginPosition` performs no validation at
all; for every argument tuple, invariant-violating or not, construction
succeeds and yields the instance holding exactly those field values. -/
theorem construct_no_validation :
    ∀ a l lev cr br : ℚ, construct a l lev cr br = ⟨a, l, lev, cr, br⟩ :=
  fun _ _ _ _ _ => rfl

/-! Claim C2. -/

/-- C2: on a position with non-zero collateral (invariant `amount > 0`), the
earnings accessors equal the §3 formulas: `annual_earnings` is the stated
expression, `net_apy = annual_earnings / collateral * 100`,
`monthly_earnings = annual_earnings / 12`, `daily_earnings = annual_earnings / 365`. -/
theorem earnings_formulas (p : MarginPosition) (h : p.amount ≠ 0) :
    p.annual_earnings
        = p.collateral_rate * p.collateral * p.leverage - p.borrow_rate * p.borrow
    ∧ p.net_apy = some (p.annual_earnings / p.collateral * 100)
    ∧ p.monthly_earnings = some (p.annual_earnings / 12)
    ∧ p.daily_earnings = some (p.annual_earnings / 365) := by
  have hc : p.collateral ≠ 0 := h
  refine ⟨rfl, ?_, ?_, ?_⟩
  · simp [MarginPosition.net_apy, MarginPosition.annual_earnings, pydiv, hc]
  · simp [MarginPosition.monthly_earnings, pydiv]
  · simp [MarginPosition.daily_earnings, pydiv]

/-- C2 witness: the formulas instantiated at the worked example. -/
theorem earnings_formulas_witness :
    examplePosition.annual_earnings
        = examplePosition.collateral_rate * examplePosition.collateral *
            examplePosition.leverage - examplePosition.borrow_rate * examplePosition.borrow
    ∧ examplePosition.net_apy
        = some (examplePosition.annual_earnings / examplePosition.collateral * 100)
    ∧ examplePosition.monthly_earnings = some (examplePosition.annual_earnings / 12)
    ∧ examplePosition.daily_earnings = some (examplePosition.annual_earnings / 365) :=
  earnings_formulas examplePosition (by decide)

/-! Claim C3. -/

/-- C3: the position-size accessors satisfy `collateral = amount`,
`borrow = amount * (leverage - 1)` and `deposit = collateral + borrow`. -/
theorem position_size_formulas (p : MarginPosition) :
    p.collateral = p.amount ∧ p.borrow = p.amount * (p.leverage - 1)
    ∧ p.deposit = p.collateral + p.borrow :=
  ⟨rfl, rfl, rfl⟩

/-- C3 witness: the size formulas instantiated at the worked example. -/
theorem position_size_formulas_witness :
    examplePosition.collateral = examplePosition.amount
    ∧ examplePosition.borrow = examplePosition.amount * (examplePosition.leverage - 1)
    ∧ examplePosition.deposit = examplePosition.collateral + examplePosition.borrow :=
  position_size_formulas examplePosition

/-! Claim C6. -/

/-- C6: at `amount=100, ltv=0.8, leverage=5, collateral_rate=0.1376,
borrow_rate=0.1097` the accessors return `borrow = 400`, `deposit = 500`,
`annual_earnings = 24.92`, `net_apy = 24.92`, `monthly_earnings = 24.92/12`
(within 1/10000 of 2.0767) and `daily_earnings = 24.92/365` (within 1/100000
of 0.06827). -/
theorem example_metrics :
    examplePosition.borrow = 400
    ∧ examplePosition.deposit = 500
    ∧ examplePosition.annual_earnings = 2492/100
    ∧ examplePosition.net_apy = some (2492/100)
    ∧ examplePosition.monthly_earnings = some (623/300)
    ∧ examplePosition.daily_earnings = some (623/9125)
    ∧ |(623/300 : ℚ) - 20767/10000| < 1/10000
    ∧ |(623/9125 : ℚ) - 6827/100000| < 1/100000 := by
  refine ⟨?_, ?_, ?_, ?_, ?_, ?_, ?_, ?_⟩ <;>
    · simp only [examplePosition, MarginPosition.borrow, MarginPosition.deposit,
        MarginPosition.collateral, MarginPosition.annual_earnings, MarginPosition.net_apy,
        MarginPosition.monthly_earnings, MarginPosition.daily_earnings, pydiv, abs_lt]
      norm_num

/-! Claim C7. -/

/-- C7: with `leverage = 1` (and the `amount > 0` invariant), `borrow = 0`,
`deposit = amount`, `annual_earnings = collateral_rate * amount` and
`net_apy = collateral_rate * 100`. -/
theorem leverage_one_metrics (p : MarginPosition) (hlev : p.leverage = 1)
    (h : 0 < p.amount) :
    p.borrow = 0 ∧ p.deposit = p.amount
    ∧ p.annual_earnings = p.collateral_rate * p.amount
    ∧ p.net_apy = some (p.collateral_rate * 100) := by
  have hne : p.amount ≠ 0 := ne_of_gt h
  have hb : p.borrow = 0 := by
    rw [MarginPosition.borrow, hlev]
    ring
  refine ⟨hb, ?_, ?_, ?_⟩
  · rw [MarginPosition.deposit, hb, MarginPosition.collateral]
    ring
  · rw [MarginPosition.annual_earnings, hb, MarginPosition.collateral, hlev]
    ring
  · rw [net_apy_formula p hne, hlev]
    ring_nf

/-- C7 witness: a concrete position with leverage 1. -/
theorem leverage_one_metrics_witness :
    (⟨100, 4/5, 1, 1/10, 1/20⟩ : MarginPosition).borrow = 0
    ∧ (⟨100, 4/5, 1, 1/10, 1/20⟩ : MarginPosition).deposit
        = (⟨100, 4/5, 1, 1/10, 1/20⟩ : MarginPosition).amount
    ∧ (⟨100, 4/5, 1, 1/10, 1/20⟩ : MarginPosition).annual_earnings
        = (⟨100, 4/5, 1, 1/10, 1/20⟩ : MarginPosition).collateral_rate *
            (⟨100, 4/5, 1, 1/10, 1/20⟩ : MarginPosition).amount
    ∧ (⟨100, 4/5, 1, 1/10, 1/20⟩ : MarginPosition).net_apy
        = some ((⟨100, 4/5, 1, 1/10, 1/20⟩ : MarginPosition).collateral_rate * 100) :=
  leverage_one_metrics ⟨100, 4/5, 1, 1/10, 1/20⟩ rfl (by norm_num)

/-! Claim C4. -/

/-- C4: for every base position (with its invariant `amount ≠ 0` and a defined
max leverage `ml`) and every ordered candidate list, `generate` succeeds and
returns, in input order, exactly one row per candidate `L ≤ ml`, each row the
projection of the position sharing the base's `amount`, `ltv`,
`collateral_rate`, `borrow_rate` with `leverage = L`; candidates with `L > ml`
are silently omitted. -/
theorem generate_filters_candidates :
    ∀ (base : MarginPosition) (cands : List ℚ) (ml : ℚ),
      base.max_leverage = some ml → base.amount ≠ 0 →
      generate base cands =
        some ((cands.filter fun L => decide (L ≤ ml)).map
          fun L => rowVal (withLeverage base L)) := by
  intro base cands ml hml h
  simp [generate, hml, generateLoop_eq_filter_map base ml h cands]

/-- C4 witness: at the worked example with candidates `[1, 6]`, the row for 6
(exceeding max leverage 5) is omitted and the row for 1 survives. -/
theorem generate_filters_candidates_witness :
    generate examplePosition [1, 6] =
      some ((([1, 6] : List ℚ).filter fun L => decide (L ≤ (5:ℚ))).map
        fun L => rowVal (withLeverage examplePosition L)) :=
  generate_filters_candidates examplePosition [1, 6] 5
    (by norm_num [MarginPosition.max_leverage, examplePosition, pydiv])
    (by norm_num [examplePosition])

/-! Claim C5. -/

/-- C5: with the standard menu `[1,2,3,4,5,ml]` where `ml` is the base
position's own max leverage, `generate` never returns an empty sequence and
the max-leverage row is always included; at the worked example with menu
`[1,2,3,4,5,5]` it returns exactly the 6 rows of all candidates, none
filtered, in the given order. -/
theorem standard_menu_rows :
    (∀ (base : MarginPosition) (ml : ℚ), base.max_leverage = some ml →
      base.amount ≠ 0 →
      ∃ rows, generate base [1, 2, 3, 4, 5, ml] = some rows ∧ rows ≠ []
        ∧ rowVal (withLeverage base ml) ∈ rows)
    ∧ generate examplePosition [1, 2, 3, 4, 5, 5] =
        some (([1, 2, 3, 4, 5, 5] : List ℚ).map
          fun L => rowVal (withLeverage examplePosition L))
    ∧ (generate examplePosition [1, 2, 3, 4, 5, 5]).map List.length = some 6 := by
  have h5 : examplePosition.max_leverage = some 5 := by
    norm_num [MarginPosition.max_leverage, examplePosition, pydiv]
  have h0 : examplePosition.amount ≠ 0 := by norm_num [examplePosition]
  have hg := generateLoop_eq_filter_map examplePosition 5 h0 [1, 2, 3, 4, 5, 5]
  have hf : (([1, 2, 3, 4, 5, 5] : List ℚ).filter fun L => decide (L ≤ (5:ℚ)))
      = [1, 2, 3, 4, 5, 5] := by
    norm_num [List.filter]
  rw [hf] at hg
  refine ⟨?_, ?_, ?_⟩
  · intro base ml hml h
    have hgen := generateLoop_eq_filter_map base ml h [1, 2, 3, 4, 5, ml]
    have hmem : rowVal (withLeverage base ml) ∈
        ((([1, 2, 3, 4, 5, ml] : List ℚ).filter fun L => decide (L ≤ ml)).map
          fun L => rowVal (withLeverage base L)) := by
      apply List.mem_map_of_mem
      rw [List.mem_filter]
      exact ⟨by simp, by simp⟩
    exact ⟨_, by simp [generate, hml, hgen], List.ne_nil_of_mem hmem, hmem⟩
  · simp [generate, h5, hg]
  · simp [generate, h5, hg]

/-! Claim C8. -/

/-- C8: with `amount > 0` and the other fields fixed, `annual_earnings` is
strictly increasing in leverage when `collateral_rate > borrow_rate` and
strictly decreasing when `collateral_rate < borrow_rate`. -/
theorem annual_earnings_mono :
    ∀ a l cr br L₁ L₂ : ℚ, 0 < a → L₁ < L₂ →
      (br < cr →
        (construct a l L₁ cr br).annual_earnings
          < (construct a l L₂ cr br).annual_earnings)
      ∧ (cr < br →
        (construct a l L₂ cr br).annual_earnings
          < (construct a l L₁ cr br).annual_earnings) := by
  intro a l cr br L₁ L₂ ha hL
  simp only [construct, MarginPosition.annual_earnings, MarginPosition.collateral,
    MarginPosition.borrow]
  constructor <;> intro hr <;>
    nlinarith [mul_pos (mul_pos ha (sub_pos.mpr hr)) (sub_pos.mpr hL)]

/-- C8 witness: at `amount=1, ltv=1/2, rates 1 and 0`, earnings grow from
leverage 1 to leverage 2. -/
theorem annual_earnings_mono_witness :
    ((0:ℚ) < 1 →
      (construct 1 (1/2) 1 1 0).annual_earnings
        < (construct 1 (1/2) 2 1 0).annual_earnings)
    ∧ ((1:ℚ) < 0 →
      (construct 1 (1/2) 2 1 0).annual_earnings
        < (construct 1 (1/2) 1 1 0).annual_earnings) :=
  annual_earnings_mono 1 (1/2) 1 0 1 2 (by norm_num) (by norm_num)

/-! Claim C9. -/

/-- C9: on any instance satisfying `amount > 0` and `0 < ltv < 1`, every
division's denominator is non-zero, so `max_leverage`, `net_apy`,
`monthly_earnings` and `daily_earnings` all return a value (`isSome`) rather
than raising, and the remaining accessors are total by construction. -/
theorem accessors_total (p : MarginPosition) (ha : 0 < p.amount)
    (h0 : 0 < p.ltv) (h1 : p.ltv < 1) :
    1 - p.ltv ≠ 0 ∧ p.collateral ≠ 0
    ∧ p.max_leverage.isSome = true ∧ p.net_apy.isSome = true
    ∧ p.monthly_earnings.isSome = true ∧ p.daily_earnings.isSome = true := by
  have hlt : 1 - p.ltv ≠ 0 := sub_ne_zero.mpr (ne_of_lt h1).symm
  have hc : p.collateral ≠ 0 := ne_of_gt ha
  refine ⟨hlt, hc, ?_, ?_, ?_, ?_⟩
  · simp [MarginPosition.max_leverage, pydiv, hlt]
  · simp [MarginPosition.net_apy, pydiv, hc]
  · norm_num [MarginPosition.monthly_earnings, pydiv]
  · norm_num [MarginPosition.daily_earnings, pydiv]

/-- C9 witness: the worked example satisfies the invariants and every
accessor evaluates. -/
theorem accessors_total_witness :
    1 - examplePosition.ltv ≠ 0 ∧ examplePosition.collateral ≠ 0
    ∧ examplePosition.max_leverage.isSome = true
    ∧ examplePosition.net_apy.isSome = true
    ∧ examplePosition.monthly_earnings.isSome = true
    ∧ examplePosition.daily_earnings.isSome = true :=
  accessors_total examplePosition (by norm_num [examplePosition])
    (by norm_num [examplePosition]) (by norm_num [examplePosition])

/-! Claim C10. -/

/-- C10: `net_apy` does not depend on `amount`: it equals
`(collateral_rate * leverage - borrow_rate * (leverage - 1)) * 100`, and two
positions sharing `ltv`, `leverage` and both rates have equal `net_apy`
whatever their (non-zero) amounts. -/
theorem net_apy_amount_independent (p q : MarginPosition) (hp : p.amount ≠ 0)
    (hq : q.amount ≠ 0) (hltv : p.ltv = q.ltv) (hlev : p.leverage = q.leverage)
    (hcr : p.collateral_rate = q.collateral_rate)
    (hbr : p.borrow_rate = q.borrow_rate) :
    p.net_apy
        = some ((p.collateral_rate * p.leverage
            - p.borrow_rate * (p.leverage - 1)) * 100)
    ∧ p.net_apy = q.net_apy := by
  refine ⟨net_apy_formula p hp, ?_⟩
  rw [net_apy_formula p hp, net_apy_formula q hq, hlev, hcr, hbr]

/-- C10 witness: amounts 100 and 7 with the example's other fields give the
same `net_apy`. -/
theorem net_apy_amount_independent_witness :
    examplePosition.net_apy
        = some ((examplePosition.collateral_rate * examplePosition.leverage
            - examplePosition.borrow_rate * (examplePosition.leverage - 1)) * 100)
    ∧ examplePosition.net_apy
        = (⟨7, 4/5, 5, 1376/10000, 1097/10000⟩ : MarginPosition).net_apy :=
  net_apy_amount_independent examplePosition ⟨7, 4/5, 5, 1376/10000, 1097/10000⟩
    (by norm_num [examplePosition]) (by norm_num) rfl rfl rfl rfl
